import Mathlib

/-!
# Eyeora tracking + behavioral-analytics engine: a shallow embedding

This file embeds the core of the Eyeora retail-analytics engine
(`Server/core/tracker.py`, `Server/core/behavior_analyzer.py`,
`Server/core/alert_system.py`, constants from `Server/core/config.py`)
as executable Lean definitions, and proves/refutes the frozen claims
about it.

Modelling conventions:
* Python floats are modelled as exact rationals (`ℚ`).
* Python `None`-able fields are `Option`s; Python truthiness on floats
  (`if self.entry_time:` is false for `0.0` and `None`) is modelled
  explicitly by `pyTruthy`.
* Mutation is modelled by explicit state passing; `list.append` by
  `++ [x]`, in-place element update by `List.set`.
* Sets used only for membership (`matched_tracks`, zone-name sets) are
  modelled as lists queried by membership only.
-/

namespace Eyeora

/-- Python float truthiness of an `Optional[float]` field:
`None` and `0.0` are falsy, everything else truthy. -/
def pyTruthy : Option ℚ → Bool
  | none => false
  | some x => x != 0

/-- Python `int(x)` on a float: truncation toward zero. -/
def pyTrunc (x : ℚ) : ℤ :=
  if 0 ≤ x then ⌊x⌋ else -⌊-x⌋

/-- `l[-n:]` in Python: the last `n` elements (the whole list when
`l.length ≤ n`). -/
def lastN (n : ℕ) (l : List α) : List α :=
  l.drop (l.length - n)

/-- `np.mean` of a list of rationals (0 on the empty list, which the
source never hits on the guarded paths). -/
def npMean (l : List ℚ) : ℚ :=
  l.sum / l.length

/-- `np.var` (population variance) of a list of rationals. -/
def npVar (l : List ℚ) : ℚ :=
  ((l.map (fun x => (x - npMean l) ^ 2)).sum) / l.length

/-! ## `core/config.py` constants used by the modelled modules -/

def IDLE_TIME_THRESHOLD : ℚ := 5
def BROWSING_TIME_THRESHOLD : ℚ := 3
def CROWD_THRESHOLD : ℕ := 10

/-! ## `core/tracker.py` -/

/-- `Detection` dataclass: one YOLO box.  `bbox = [x1, y1, x2, y2]`. -/
structure Detection where
  bbox : ℚ × ℚ × ℚ × ℚ
  confidence : ℚ := 1
  class_id : ℤ := 0
  class_name : String := "person"
  deriving DecidableEq, Repr

/-- `Detection.center`: midpoint of the bounding box. -/
def Detection.center (d : Detection) : ℚ × ℚ :=
  ((d.bbox.1 + d.bbox.2.2.1) / 2, (d.bbox.2.1 + d.bbox.2.2.2) / 2)

/-- `Track` dataclass with the defaults of the source.  The random
`uuid` field (a `uuid4` prefix) is nondeterministic and read by no
modelled operation, so it is omitted. -/
structure Track where
  track_id : ℕ
  detections : List Detection := []
  positions : List (ℚ × ℚ) := []
  timestamps : List ℚ := []
  frames : List ℕ := []
  is_active : Bool := true
  entry_time : Option ℚ := none
  exit_time : Option ℚ := none
  entry_frame : Option ℕ := none
  exit_frame : Option ℕ := none
  visited_zones : List String := []
  behavior_history : List String := []
  idle_duration : ℚ := 0
  visited_checkout : Bool := false
  made_purchase : Bool := false
  frames_without_detection : ℕ := 0
  total_frames : ℕ := 0
  deriving DecidableEq, Repr

/-- `Track.update`: append the detection, reset the age counter, stamp
the entry time/frame on the first update. -/
def Track.update (t : Track) (d : Detection) (frame_num : ℕ) (timestamp : ℚ) : Track :=
  let t := { t with
    detections := t.detections ++ [d]
    positions := t.positions ++ [d.center]
    timestamps := t.timestamps ++ [timestamp]
    frames := t.frames ++ [frame_num]
    frames_without_detection := 0
    total_frames := t.total_frames + 1 }
  if t.entry_time = none then
    { t with entry_time := some timestamp, entry_frame := some frame_num }
  else t

/-- `Track.mark_lost`: one more frame without a detection. -/
def Track.mark_lost (t : Track) : Track :=
  { t with frames_without_detection := t.frames_without_detection + 1 }

/-- `Track.mark_exited`. -/
def Track.mark_exited (t : Track) (timestamp : ℚ) (frame_num : ℕ) : Track :=
  { t with is_active := false, exit_time := some timestamp, exit_frame := some frame_num }

/-- `Track.duration` property.  Note the Python truthiness: an
`entry_time`/`exit_time` equal to `0.0` counts as unset there. -/
def Track.duration (t : Track) : ℚ :=
  if pyTruthy t.entry_time && pyTruthy t.exit_time then
    t.exit_time.getD 0 - t.entry_time.getD 0
  else if t.timestamps ≠ [] then
    t.timestamps.getLastD 0 - t.timestamps.headD 0
  else 0

/-- `Track.last_position` property. -/
def Track.last_position (t : Track) : Option (ℚ × ℚ) :=
  t.positions.getLast?

/-- `Track.is_stationary` property: variance of the last 10 positions,
both coordinates below 50. -/
def Track.is_stationary (t : Track) : Bool :=
  if t.positions.length < 10 then false
  else
    let recent := lastN 10 t.positions
    npVar (recent.map Prod.fst) < 50 && npVar (recent.map Prod.snd) < 50

/-- `PersonTracker` state. -/
structure PersonTracker where
  max_age : ℕ := 30
  min_hits : ℕ := 3
  iou_threshold : ℚ := 3/10
  tracks : List Track := []
  next_track_id : ℕ := 1
  frame_count : ℕ := 0
  deriving DecidableEq, Repr

/-- `PersonTracker.__init__`. -/
def PersonTracker.init (max_age : ℕ := 30) (min_hits : ℕ := 3)
    (iou_threshold : ℚ := 3/10) : PersonTracker :=
  { max_age := max_age, min_hits := min_hits, iou_threshold := iou_threshold }

/-- `PersonTracker._calculate_iou`: IoU of two axis-aligned boxes. -/
def calculate_iou (bbox1 bbox2 : ℚ × ℚ × ℚ × ℚ) : ℚ :=
  let (x1_min, y1_min, x1_max, y1_max) := bbox1
  let (x2_min, y2_min, x2_max, y2_max) := bbox2
  let x_min := max x1_min x2_min
  let y_min := max y1_min y2_min
  let x_max := min x1_max x2_max
  let y_max := min y1_max y2_max
  if x_max < x_min ∨ y_max < y_min then 0
  else
    let intersection := (x_max - x_min) * (y_max - y_min)
    let area1 := (x1_max - x1_min) * (y1_max - y1_min)
    let area2 := (x2_max - x2_min) * (y2_max - y2_min)
    let union := area1 + area2 - intersection
    if union > 0 then intersection / union else 0

/-- One entry of the IoU matrix built at the top of
`_match_detections_to_tracks`: rows of inactive tracks, or of tracks
with no detections, keep the `np.zeros` value 0. -/
def iouEntry (tracks : List Track) (dets : List Detection) (t d : ℕ) : ℚ :=
  match tracks.get? t with
  | none => 0
  | some tr =>
    if !tr.is_active then 0
    else
      match tr.detections.getLast? with
      | none => 0
      | some last_detection =>
        match dets.get? d with
        | none => 0
        | some det => calculate_iou last_detection.bbox det.bbox

/-- The argmax scan inside the greedy-matching `while` loop: iterate
`t_idx` then `d_idx` in index order, skip already-matched rows and
columns, keep the first strict maximum above the running value (which
starts at 0, as in the source). -/
def scanMax (m : ℕ → ℕ → ℚ) (T D : ℕ) (mt md : List ℕ) : ℚ × Option (ℕ × ℕ) :=
  (List.range T).foldl
    (fun acc t =>
      if mt.contains t then acc
      else
        (List.range D).foldl
          (fun acc2 d =>
            if md.contains d then acc2
            else if m t d > acc2.1 then (m t d, some (t, d)) else acc2)
          acc)
    (0, none)

/-- The greedy-matching `while True` loop of
`_match_detections_to_tracks`.  The IoU matrix `m` is computed once,
before the loop, from the pre-loop tracks (as in the source, where the
`np` matrix is not recomputed after a track is updated).  Commit means:
update the track at the winning row with the detection at the winning
column and record the pair.  When `iou_threshold > 0` a commit implies
the scan found a real pair, so the `none` branch is unreachable; with a
non-positive threshold CPython instead indexes `tracks[-1]` forever
(the loop never terminates), which is outside every claim, and the
model simply stops there.  Each committing iteration matches a fresh
row, so `tracks.length + 1` iterations always reach the break. -/
def greedyLoop (m : ℕ → ℕ → ℚ) (thr : ℚ) (fc : ℕ) (ts : ℚ)
    (dets : List Detection) :
    ℕ → List Track × List (ℕ × ℕ) → List Track × List (ℕ × ℕ)
  | 0, st => st
  | fuel + 1, (tracks, pairs) =>
    let found := scanMax m tracks.length dets.length
      (pairs.map Prod.fst) (pairs.map Prod.snd)
    if found.1 < thr then (tracks, pairs)
    else
      match found.2 with
      | none => (tracks, pairs)
      | some (t, d) =>
        let tracks' :=
          match tracks.get? t, dets.get? d with
          | some tr, some det => tracks.set t (tr.update det fc ts)
          | _, _ => tracks
        greedyLoop m thr fc ts dets fuel (tracks', (t, d) :: pairs)

/-- The first half of `_match_detections_to_tracks`: the greedy loop,
returning the updated tracks together with the committed
track-index/detection-index pairs (implicit in the source's
`matched_tracks` / `matched_detections` sets, which grow in lockstep
with the commits). -/
def matchResult (tracks : List Track) (dets : List Detection)
    (thr : ℚ) (fc : ℕ) (ts : ℚ) : List Track × List (ℕ × ℕ) :=
  greedyLoop (iouEntry tracks dets) thr fc ts dets (tracks.length + 1) (tracks, [])

/-- `PersonTracker._create_track`. -/
def PersonTracker.create_track (s : PersonTracker) (d : Detection) (ts : ℚ) :
    PersonTracker :=
  let track := Track.update { track_id := s.next_track_id } d s.frame_count ts
  { s with tracks := s.tracks ++ [track], next_track_id := s.next_track_id + 1 }

/-- `PersonTracker._match_detections_to_tracks`: greedy matching, then
mark unmatched active tracks lost, then create tracks for unmatched
detections. -/
def PersonTracker.match_detections_to_tracks (s : PersonTracker)
    (dets : List Detection) (ts : ℚ) : PersonTracker :=
  let res := matchResult s.tracks dets s.iou_threshold s.frame_count ts
  let tracks1 := res.1
  let matchedT := res.2.map Prod.fst
  let matchedD := res.2.map Prod.snd
  let tracks2 := tracks1.mapIdx fun i tr =>
    if !matchedT.contains i && tr.is_active then tr.mark_lost else tr
  let s := { s with tracks := tracks2 }
  (dets.enum.filter fun p => !matchedD.contains p.1).foldl
    (fun acc p => acc.create_track p.2 ts) s

/-- `PersonTracker._remove_old_tracks`.  The source computes
`current_time = self.timestamps[-1] if hasattr(self, 'timestamps') else 0`;
`PersonTracker` never defines a `timestamps` attribute, so `hasattr`
is always false and `current_time` is the constant `0`. -/
def PersonTracker.remove_old_tracks (s : PersonTracker) : PersonTracker :=
  let current_time : ℚ := 0
  { s with tracks := s.tracks.map fun tr =>
      if tr.frames_without_detection > s.max_age then
        if tr.is_active && tr.total_frames ≥ s.min_hits then
          tr.mark_exited current_time s.frame_count
        else tr
      else tr }

/-- `PersonTracker.update`: returns the new state and the list of
active tracks (the source mutates `self` and returns the list). -/
def PersonTracker.update (s : PersonTracker) (detections : List Detection)
    (timestamp : ℚ) : PersonTracker × List Track :=
  let s := { s with frame_count := s.frame_count + 1 }
  let person_detections := detections.filter fun d => d.class_name == "person"
  let s :=
    if s.tracks.length = 0 then
      person_detections.foldl (fun acc d => acc.create_track d timestamp) s
    else
      s.match_detections_to_tracks person_detections timestamp
  let s := s.remove_old_tracks
  (s, s.tracks.filter (·.is_active))

/-- `PersonTracker.get_active_tracks`. -/
def PersonTracker.get_active_tracks (s : PersonTracker) : List Track :=
  s.tracks.filter (·.is_active)

/-- `PersonTracker.get_completed_tracks`. -/
def PersonTracker.get_completed_tracks (s : PersonTracker) : List Track :=
  s.tracks.filter fun t => !t.is_active && t.total_frames ≥ s.min_hits

/-- A whole session: fold `update` over a list of
`(detections, timestamp)` frames. -/
def PersonTracker.run (s : PersonTracker) (inputs : List (List Detection × ℚ)) :
    PersonTracker :=
  inputs.foldl (fun acc p => (acc.update p.1 p.2).1) s

/-! ## `core/behavior_analyzer.py` — zone classifier -/

/-- A zone configuration dict from `core/config.py`
(`x_start`/`x_end`/`y_start`/`y_end`, fractions of the frame). -/
structure ZoneConfig where
  x_start : ℚ
  x_end : ℚ
  y_start : ℚ
  y_end : ℚ
  deriving DecidableEq, Repr

def ENTRY_ZONE : ZoneConfig := ⟨0, 3/10, 0, 1⟩
def EXIT_ZONE : ZoneConfig := ⟨7/10, 1, 0, 1⟩
def CHECKOUT_ZONE : ZoneConfig := ⟨4/10, 6/10, 7/10, 1⟩

/-- A zone converted to pixel bounds (the dict built by
`_calculate_zone_pixels`). -/
structure ZonePixels where
  x_min : ℤ
  x_max : ℤ
  y_min : ℤ
  y_max : ℤ
  deriving DecidableEq, Repr

/-- `ZoneDetector._calculate_zone_pixels`: `int(ratio * dimension)`. -/
def calculate_zone_pixels (cfg : ZoneConfig) (frame_width frame_height : ℕ) :
    ZonePixels :=
  { x_min := pyTrunc (cfg.x_start * frame_width)
    x_max := pyTrunc (cfg.x_end * frame_width)
    y_min := pyTrunc (cfg.y_start * frame_height)
    y_max := pyTrunc (cfg.y_end * frame_height) }

/-- `ZoneDetector` state after `__init__`. -/
structure ZoneDetector where
  frame_width : ℕ
  frame_height : ℕ
  entry_zone : ZonePixels
  exit_zone : ZonePixels
  checkout_zone : ZonePixels
  deriving DecidableEq, Repr

/-- `ZoneDetector.__init__`.  The source reads the three zone configs
from module constants; the model takes them as parameters so that
arbitrary configurations can be examined.  The constructor performs no
validation and cannot fail. -/
def ZoneDetector.init (entry exit_ checkout : ZoneConfig)
    (frame_width frame_height : ℕ) : ZoneDetector :=
  { frame_width := frame_width
    frame_height := frame_height
    entry_zone := calculate_zone_pixels entry frame_width frame_height
    exit_zone := calculate_zone_pixels exit_ frame_width frame_height
    checkout_zone := calculate_zone_pixels checkout frame_width frame_height }

/-- A placeholder for the `ConfigError` the spec demands at
construction; no such exception type exists anywhere in the source. -/
structure ConfigError where
  msg : String
  deriving DecidableEq, Repr

/-- `ZoneDetector` construction viewed through the error channel the
spec claims: since the source constructor validates nothing and raises
nothing, it always succeeds. -/
def ZoneDetector.initE (entry exit_ checkout : ZoneConfig)
    (frame_width frame_height : ℕ) : Except ConfigError ZoneDetector :=
  Except.ok (ZoneDetector.init entry exit_ checkout frame_width frame_height)

/-- `ZoneDetector.point_in_zone`. -/
def ZoneDetector.point_in_zone (p : ℚ × ℚ) (zone : ZonePixels) : Bool :=
  (zone.x_min : ℚ) ≤ p.1 && p.1 ≤ (zone.x_max : ℚ) &&
  (zone.y_min : ℚ) ≤ p.2 && p.2 ≤ (zone.y_max : ℚ)

/-- `ZoneDetector.get_zone_name`: first match in priority order
entry, exit, checkout; otherwise `"main_area"`. -/
def ZoneDetector.get_zone_name (zd : ZoneDetector) (p : ℚ × ℚ) : String :=
  if ZoneDetector.point_in_zone p zd.entry_zone then "entry"
  else if ZoneDetector.point_in_zone p zd.exit_zone then "exit"
  else if ZoneDetector.point_in_zone p zd.checkout_zone then "checkout"
  else "main_area"

/-! ## `core/behavior_analyzer.py` — `BehaviorAnalyzer` (Track-based path) -/

/-- The `{"type": ..., "confidence": ...}` part of the dict built by
`_determine_behavior` (the `details` entry is a human-readable string
read by nothing the claims touch). -/
structure BehaviorOut where
  type : String
  confidence : ℚ
  deriving DecidableEq, Repr

/-- `BehaviorAnalyzer._analyze_zones`: the distinct zone names of the
recorded positions.  The source collects them in a Python `set` (whose
iteration order is hash-dependent); only membership in the result is
ever used, and the model keeps first-visit order. -/
def analyze_zones (zd : ZoneDetector) (t : Track) : List String :=
  (t.positions.map zd.get_zone_name).dedup

/-- `BehaviorAnalyzer._check_if_stationary`: standard deviation of the
last `min(30, n)` positions below 20 in both coordinates.  The source
compares `np.std(coords) < 20`; since both sides are nonnegative this
is equivalent to the (rational) variance being below `400`, which is
how the square root is avoided here. -/
def check_if_stationary (t : Track) : Bool :=
  if t.positions.length < 10 then false
  else
    let check_frames := min 30 t.positions.length
    let recent := lastN check_frames t.positions
    npVar (recent.map Prod.fst) < 400 && npVar (recent.map Prod.snd) < 400

/-- `BehaviorAnalyzer._determine_behavior`: the guard-clause cascade
over the already-computed metrics. -/
def determine_behavior (duration movement_distance : ℚ)
    (visited_checkout is_stationary : Bool) : BehaviorOut :=
  if visited_checkout then
    { type := "purchasing", confidence := 9/10 }
  else if is_stationary && duration > IDLE_TIME_THRESHOLD then
    { type := "idle", confidence := 85/100 }
  else if duration < 3 && movement_distance < 100 then
    { type := "passing_through", confidence := 8/10 }
  else if duration ≥ BROWSING_TIME_THRESHOLD then
    let avg_movement := if duration > 0 then movement_distance / duration else 0
    if avg_movement > 10 then
      { type := "browsing", confidence := 85/100 }
    else
      { type := "browsing", confidence := 75/100 }
  else
    { type := "window_shopping", confidence := 8/10 }

/-- `BehaviorAnalyzer.analyze_track`, restricted to the behavior label
and confidence it reports.  `track.movement_distance` is a sum of
floating-point square roots in the source (irrational in general), so
the already-computed value is passed in as `movement_distance`; every
other metric is computed exactly as the source does. -/
def analyze_track (zd : ZoneDetector) (t : Track) (movement_distance : ℚ) :
    BehaviorOut :=
  if t.positions.length < 5 then
    { type := "passing_through", confidence := 1/2 }
  else
    let zones_visited := analyze_zones zd t
    let visited_checkout := zones_visited.contains "checkout"
    determine_behavior t.duration movement_distance visited_checkout
      (check_if_stationary t)

/-- Modelled from the spec (claim C5's wording, settling the
refinement side): the behavior cascade exactly as the claim states it —
Purchasing 0.9 on a checkout visit; else Idle 0.85 when stationary and
over the idle threshold; else PassingThrough 0.8 when short and near;
else, past the browsing threshold, Browsing with 0.85 when
`avgSpeed = movementDistance / duration > 10` and 0.75 otherwise; else
WindowShopping 0.8. -/
def specBehaviorCascade (duration movementDistance : ℚ)
    (zonesVisited : List String) (isStationary : Bool) : BehaviorOut :=
  if zonesVisited.contains "checkout" then
    { type := "purchasing", confidence := 9/10 }
  else if isStationary && duration > IDLE_TIME_THRESHOLD then
    { type := "idle", confidence := 85/100 }
  else if duration < 3 && movementDistance < 100 then
    { type := "passing_through", confidence := 8/10 }
  else if duration ≥ BROWSING_TIME_THRESHOLD then
    if movementDistance / duration > 10 then
      { type := "browsing", confidence := 85/100 }
    else
      { type := "browsing", confidence := 75/100 }
  else
    { type := "window_shopping", confidence := 8/10 }

/-! ## `core/behavior_analyzer.py` — `generate_summary` -/

/-- One analyzed-track dict as consumed by `generate_summary`; the
fields the summary reads, already normalized (`behavior` as its string
label, flags as booleans, zones as a name list, duration numeric). -/
structure BehaviorResult where
  behavior : String := "unknown"
  visited_checkout : Bool := false
  zones_visited : List String := []
  made_purchase : Bool := false
  duration : ℚ := 0
  deriving DecidableEq, Repr

/-- Round half to even (Python 3 `round` tie-breaking) of a rational. -/
def roundHalfEven (q : ℚ) : ℤ :=
  let f := ⌊q⌋
  if q - f < 1/2 then f
  else if q - f > 1/2 then f + 1
  else if f % 2 = 0 then f else f + 1

/-- Python `round(x, 2)` on an exact rational value. -/
def round2 (q : ℚ) : ℚ :=
  (roundHalfEven (q * 100) : ℚ) / 100

/-- The summary dict (numeric fields; the behavior-distribution map is
exposed as a count function). -/
structure Summary where
  total_visitors : ℕ
  total_customers : ℕ
  window_shoppers : ℕ
  browsers : ℕ
  purchasers : ℕ
  passing_through : ℕ
  idle : ℕ
  conversion_rate : ℚ
  avg_visit_duration : ℚ
  total_checkout_visitors : ℕ
  behavior_distribution : String → ℕ

/-- The per-result purchaser test of the summary loop:
`visited_checkout_flag` is the stored flag, forced on when
`"checkout"` appears in `zones_visited`; a purchaser is a Purchasing
label, or an explicit `made_purchase`, or that checkout flag. -/
def checkoutFlag (r : BehaviorResult) : Bool :=
  r.visited_checkout || r.zones_visited.contains "checkout"

def isPurchaser (r : BehaviorResult) : Bool :=
  r.behavior == "purchasing" || r.made_purchase || checkoutFlag r

/-- `BehaviorAnalyzer.generate_summary`.  The `try/except` wrapper can
only fire on malformed dynamic input (absent in the typed model); the
defensive duration coercion is the identity here because `duration` is
already numeric. -/
def generate_summary (analyzed_tracks : List BehaviorResult) : Summary :=
  if analyzed_tracks.isEmpty then
    { total_visitors := 0, total_customers := 0, window_shoppers := 0
      browsers := 0, purchasers := 0, passing_through := 0, idle := 0
      conversion_rate := 0, avg_visit_duration := 0
      total_checkout_visitors := 0, behavior_distribution := fun _ => 0 }
  else
    let total_visitors := analyzed_tracks.length
    let durations := analyzed_tracks.map (·.duration)
    let avg_duration := npMean durations
    let behaviors := analyzed_tracks.map (·.behavior)
    let purchasers := (analyzed_tracks.filter isPurchaser).length
    let total_checkout_visitors := (analyzed_tracks.filter checkoutFlag).length
    let conversion_rate := (purchasers : ℚ) / (total_visitors : ℚ) * 100
    { total_visitors := total_visitors
      total_customers := purchasers
      window_shoppers := behaviors.count "window_shopping"
      browsers := behaviors.count "browsing"
      purchasers := purchasers
      passing_through := behaviors.count "passing_through"
      idle := behaviors.count "idle"
      conversion_rate := round2 conversion_rate
      avg_visit_duration := round2 avg_duration
      total_checkout_visitors := total_checkout_visitors
      behavior_distribution := fun l => behaviors.count l }

/-! ## `core/alert_system.py` -/

inductive AlertLevel
  | info | warning | critical
  deriving DecidableEq, Repr

inductive AlertType
  | crowd_detected | suspicious_behavior | loitering
  | security_object | zone_violation | high_activity | no_activity
  deriving DecidableEq, Repr

/-- The `details` dicts the alert rules build, as one record of
optional entries (`people_count`/`threshold`/`current_count` for crowd
alerts, `track_id`/`duration`/`threshold` for loitering,
`track_id`/`idle_duration`/`position` for idle). -/
structure AlertDetails where
  people_count : Option ℕ := none
  threshold : Option ℚ := none
  current_count : Option ℕ := none
  track_id : Option ℕ := none
  duration : Option ℚ := none
  idle_duration : Option ℚ := none
  position : Option (Option (ℚ × ℚ)) := none
  deriving DecidableEq, Repr

/-- `Alert` dataclass.  `alert_id` is
`f"ALERT_{int(time.time()*1000)}_{total_alerts}"` in the source; the
wall-clock prefix is nondeterministic, so the model keeps the
deterministic sequence component.  `resolved_at` is a wall-clock stamp
(`time.time()`), modelled as a set-once marker. -/
structure Alert where
  alert_id : ℕ
  alert_type : AlertType
  level : AlertLevel
  timestamp : ℚ
  message : String
  details : AlertDetails
  location : Option (Option (ℚ × ℚ)) := none
  resolved : Bool := false
  resolved_at : Option Unit := none
  deriving DecidableEq, Repr

/-- `Alert.resolve`. -/
def Alert.resolve (a : Alert) : Alert :=
  { a with resolved := true, resolved_at := some () }

/-- `AlertSystem` state.  `alert_history` receives exactly the same
alert objects as `active_alerts` (both are appended to only in
`_process_alert`) and is read only by `get_alert_history`, which no
claim touches, so it is not duplicated here; logging, printing and
callbacks are I/O side effects outside the model. -/
structure AlertSystem where
  crowd_threshold : ℕ
  loitering_time : ℚ
  active_alerts : List Alert := []
  total_alerts : ℕ := 0
  count_crowd : ℕ := 0
  count_suspicious : ℕ := 0
  count_loitering : ℕ := 0
  deriving DecidableEq, Repr

/-- `AlertSystem.__init__`: note the Python truthiness of
`crowd_threshold or CROWD_THRESHOLD` — passing `None` (here `none`)
or `0` both fall back to the config default 10. -/
def AlertSystem.init (crowd_threshold : Option ℕ := none)
    (loitering_time : ℚ := 300) : AlertSystem :=
  { crowd_threshold :=
      match crowd_threshold with
      | none => CROWD_THRESHOLD
      | some k => if k = 0 then CROWD_THRESHOLD else k
    loitering_time := loitering_time }

/-- `AlertSystem._check_crowd`: at or above the threshold, update the
first unresolved crowd alert's `details['current_count']` in place and
create nothing, or create a fresh Warning alert when none exists;
below the threshold, resolve every unresolved crowd alert
(`_resolve_alerts_by_type`).  Returns the updated alert list and the
optional new alert. -/
def AlertSystem.check_crowd (s : AlertSystem) (tracks : List Track)
    (timestamp : ℚ) : List Alert × Option Alert :=
  let people_count := tracks.length
  if people_count ≥ s.crowd_threshold then
    match s.active_alerts.findIdx?
        (fun a => a.alert_type == AlertType.crowd_detected && !a.resolved) with
    | some i =>
      match s.active_alerts.get? i with
      | some a =>
        (s.active_alerts.set i
          { a with details := { a.details with current_count := some people_count } },
         none)
      | none => (s.active_alerts, none)
    | none =>
      let alert : Alert :=
        { alert_id := s.total_alerts
          alert_type := AlertType.crowd_detected
          level := AlertLevel.warning
          timestamp := timestamp
          message := "Crowd detected: " ++ toString people_count ++ " people"
          details := { people_count := some people_count
                       threshold := some (s.crowd_threshold : ℚ) } }
      (s.active_alerts, some alert)
  else
    (s.active_alerts.map fun a =>
       if a.alert_type == AlertType.crowd_detected && !a.resolved
       then a.resolve else a,
     none)

/-- `AlertSystem._check_loitering`: one Info alert per over-threshold
track that has no unresolved loitering alert keyed by its id. -/
def AlertSystem.check_loitering (s : AlertSystem) (tracks : List Track)
    (timestamp : ℚ) : List Alert :=
  (tracks.filter fun t =>
    t.duration > s.loitering_time &&
    !(s.active_alerts.any fun a =>
        a.details.track_id == some t.track_id &&
        a.alert_type == AlertType.loitering && !a.resolved)).map
    fun t =>
      { alert_id := s.total_alerts
        alert_type := AlertType.loitering
        level := AlertLevel.info
        timestamp := timestamp
        message := "Person loitering: ID " ++ toString t.track_id
        details := { track_id := some t.track_id
                     duration := some t.duration
                     threshold := some s.loitering_time }
        location := some t.last_position }

/-- `AlertSystem._check_idle_behavior`: one Info SuspiciousBehavior
alert per stationary track with `idle_duration > 60.0` that has no
unresolved alert of that type keyed by its id. -/
def AlertSystem.check_idle_behavior (s : AlertSystem) (tracks : List Track)
    (timestamp : ℚ) : List Alert :=
  (tracks.filter fun t =>
    t.is_stationary && t.idle_duration > 60 &&
    !(s.active_alerts.any fun a =>
        a.details.track_id == some t.track_id &&
        a.alert_type == AlertType.suspicious_behavior && !a.resolved)).map
    fun t =>
      { alert_id := s.total_alerts
        alert_type := AlertType.suspicious_behavior
        level := AlertLevel.info
        timestamp := timestamp
        message := "Idle behavior detected: ID " ++ toString t.track_id
        details := { track_id := some t.track_id
                     idle_duration := some t.idle_duration
                     position := some t.last_position } }

/-- `AlertSystem._process_alert`: store the alert and bump the
counters (logging/callbacks/printing are I/O, outside the model). -/
def AlertSystem.process_alert (s : AlertSystem) (a : Alert) : AlertSystem :=
  { s with
    active_alerts := s.active_alerts ++ [a]
    total_alerts := s.total_alerts + 1
    count_crowd := s.count_crowd +
      (if a.alert_type == AlertType.crowd_detected then 1 else 0)
    count_suspicious := s.count_suspicious +
      (if a.alert_type == AlertType.suspicious_behavior then 1 else 0)
    count_loitering := s.count_loitering +
      (if a.alert_type == AlertType.loitering then 1 else 0) }

/-- `AlertSystem.check_alerts`: run the three rules against the
pre-call alert list (crowd-rule mutations included, as the rules all
read `self.active_alerts` before any new alert is appended), then
process every new alert.  Returns the new state and the new alerts. -/
def AlertSystem.check_alerts (s : AlertSystem) (active_tracks : List Track)
    (timestamp : ℚ) : AlertSystem × List Alert :=
  let cres := s.check_crowd active_tracks timestamp
  let s := { s with active_alerts := cres.1 }
  let loitering_alerts := s.check_loitering active_tracks timestamp
  let idle_alerts := s.check_idle_behavior active_tracks timestamp
  let new_alerts := (cres.2.toList ++ loitering_alerts) ++ idle_alerts
  (new_alerts.foldl AlertSystem.process_alert s, new_alerts)

/-- A whole alert session: fold `check_alerts` over a list of
`(active tracks, timestamp)` ticks. -/
def AlertSystem.run (s : AlertSystem) (inputs : List (List Track × ℚ)) :
    AlertSystem :=
  inputs.foldl (fun acc p => (acc.check_alerts p.1 p.2).1) s

/-- How many alerts in a list are unresolved CrowdDetected alerts. -/
def countCrowdUnres (l : List Alert) : ℕ :=
  (l.filter fun a => a.alert_type == AlertType.crowd_detected && !a.resolved).length

/-- How many alerts in a list are CrowdDetected alerts at all. -/
def countCrowd (l : List Alert) : ℕ :=
  (l.filter fun a => a.alert_type == AlertType.crowd_detected).length

/-- The number of unresolved CrowdDetected alerts in the store. -/
def unresolvedCrowd (s : AlertSystem) : ℕ := countCrowdUnres s.active_alerts

/-- The number of CrowdDetected alerts (resolved or not) in the store. -/
def crowdAlerts (s : AlertSystem) : ℕ := countCrowd s.active_alerts

/-! ## Witness fixtures: concrete inputs used by the claim theorems -/

/-- A person detection with box `(0, 0, 10, 10)`. -/
def wDet : Detection := { bbox := (0, 0, 10, 10) }

/-- A three-frame session under `max_age = 1`, `min_hits = 2`: one
detection, then two empty frames, so the single track ends with
`frames_without_detection = 2 > max_age` but only 1 update. -/
def wStale : PersonTracker :=
  PersonTracker.run (PersonTracker.init 1 2 (3/10)) [([wDet], 1), ([], 2), ([], 3)]

/-- The same session under `min_hits = 1` and timestamps 5, 6, 7, so
the track is evicted on the third frame. -/
def wExited : PersonTracker :=
  PersonTracker.run (PersonTracker.init 1 1 (3/10)) [([wDet], 5), ([], 6), ([], 7)]

/-- Ten positions: five at x = 0, five at x = 20 (x-variance 100). -/
def wSplitPositions : List (ℚ × ℚ) :=
  [(0,0),(0,0),(0,0),(0,0),(0,0),(20,0),(20,0),(20,0),(20,0),(20,0)]

/-- A zone with `x_start = 0.6 ≥ x_end = 0.3`. -/
def wBadZone : ZoneConfig := ⟨6/10, 3/10, 0, 1⟩

/-- The zone classifier on a 100×100 frame with the config's zones. -/
def wZd : ZoneDetector :=
  ZoneDetector.init ENTRY_ZONE EXIT_ZONE CHECKOUT_ZONE 100 100

/-- A five-position track in the main area, 4 seconds long. -/
def wTrack5 : Track :=
  { track_id := 1
    positions := [(50,50),(50,50),(50,50),(50,50),(50,50)]
    timestamps := [0,1,2,3,4] }

/-! ## Claim theorems -/

/-- **C1** (code bug, evaluated at the failing input): under
`max_age = 1`, `min_hits = 2`, a track seen once and then missed twice
has `frames_without_match = 2 > max_age` with 1 < `min_hits` lifetime
updates, yet after the eviction pass it is still returned as an active
track by `update()`/`get_active_tracks()` — it does not disappear from
the queries as the claim states (it never exits at all). -/
theorem c1_stale_track_remains_active :
    wStale.get_active_tracks.map (·.track_id) = [1] ∧
    wStale.get_completed_tracks = [] ∧
    wStale.tracks.map
      (fun t => (t.frames_without_detection, t.total_frames, t.is_active)) =
      [(2, 1, true)] := by
  with_unfolding_all decide

/-- **C2** (code bug, evaluated at the failing input): a track created
at timestamp 5 and evicted on the frame processed at timestamp 7 gets
`exit_time = 0`, not the timestamp of the last processed frame —
`_remove_old_tracks` reads `self.timestamps`, an attribute
`PersonTracker` never defines, so its `hasattr` fallback `0` is always
used.  (`exit_frame` does get the current frame counter, 3.) -/
theorem c2_exit_time_stamped_zero :
    wExited.tracks.map (fun t => (t.is_active, t.exit_time, t.exit_frame)) =
      [(false, some 0, some 3)] := by
  with_unfolding_all decide

/-- Helper for C5: the source's `_determine_behavior` cascade agrees
with the claim's cascade on every metric vector (the only textual
difference, the `duration > 0` guard on `avg_movement`, is immaterial
where the browsing branch applies). -/
theorem determine_behavior_eq_spec (duration md : ℚ) (zones : List String)
    (stat : Bool) :
    determine_behavior duration md (zones.contains "checkout") stat =
      specBehaviorCascade duration md zones stat := by
  have hb : BROWSING_TIME_THRESHOLD = 3 := rfl
  unfold determine_behavior specBehaviorCascade
  dsimp only
  split_ifs with h1 h2 h3 h4 h5 h6 <;> first
    | rfl
    | (exfalso; rw [hb] at h4; linarith)

/-- **C5** (confirmed): for every track with at least 5 recorded
positions, `analyze_track` reports exactly the claim's first-match
cascade — Purchasing 0.9 on a checkout-zone visit, else Idle 0.85 when
stationary beyond the idle threshold, else PassingThrough 0.8 when
shorter than 3 s with under 100 px of movement, else Browsing past the
browsing threshold (0.85 when `movementDistance / duration > 10`, else
0.75), else WindowShopping 0.8. -/
theorem behavior_rules_priority_order (zd : ZoneDetector) (t : Track) (md : ℚ)
    (h : 5 ≤ t.positions.length) :
    analyze_track zd t md =
      specBehaviorCascade t.duration md (analyze_zones zd t)
        (check_if_stationary t) := by
  unfold analyze_track
  rw [if_neg (by omega)]
  exact determine_behavior_eq_spec t.duration md (analyze_zones zd t)
    (check_if_stationary t)

/-- Witness for C5 at a concrete 5-position, 4-second track. -/
theorem behavior_rules_priority_order_witness :
    5 ≤ wTrack5.positions.length ∧
    analyze_track wZd wTrack5 0 =
      specBehaviorCascade wTrack5.duration 0 (analyze_zones wZd wTrack5)
        (check_if_stationary wTrack5) :=
  ⟨by with_unfolding_all decide,
   behavior_rules_priority_order wZd wTrack5 0 (by with_unfolding_all decide)⟩

/-- **C7** counterexample: with a zone whose `x_start = 0.6 ≥ 0.3 =
x_end`, construction of the zone classifier succeeds — it is not
rejected, no `ConfigError` is raised (none exists in the source), and
the inverted rectangle is stored exactly as converted. -/
theorem c7_invalid_zone_accepted :
    wBadZone.x_start ≥ wBadZone.x_end ∧
    (ZoneDetector.initE ENTRY_ZONE EXIT_ZONE wBadZone 100 100).isOk = true ∧
    (ZoneDetector.init ENTRY_ZONE EXIT_ZONE wBadZone 100 100).checkout_zone =
      { x_min := 60, x_max := 30, y_min := 0, y_max := 100 } := by
  with_unfolding_all decide

/-- **C7** (amended): construction of the zone classifier never fails
for any zone configuration — invalid rectangles included — and stores
each configured rectangle converted as-is, without correction; a zone
whose pixel bounds are inverted simply contains no point. -/
theorem zone_construction_never_fails
    (e x c : ZoneConfig) (w h : ℕ) (z : ZonePixels) (p : ℚ × ℚ)
    (hz : z.x_max < z.x_min) :
    ZoneDetector.initE e x c w h = Except.ok (ZoneDetector.init e x c w h) ∧
    (ZoneDetector.init e x c w h).entry_zone = calculate_zone_pixels e w h ∧
    (ZoneDetector.init e x c w h).exit_zone = calculate_zone_pixels x w h ∧
    (ZoneDetector.init e x c w h).checkout_zone = calculate_zone_pixels c w h ∧
    ZoneDetector.point_in_zone p z = false := by
  refine ⟨rfl, rfl, rfl, rfl, ?_⟩
  unfold ZoneDetector.point_in_zone
  rw [Bool.eq_false_iff]
  intro hcontra
  simp only [Bool.and_eq_true, decide_eq_true_eq] at hcontra
  have h1 : (z.x_min : ℚ) ≤ p.1 := hcontra.1.1.1
  have h2 : p.1 ≤ (z.x_max : ℚ) := hcontra.1.1.2
  have h3 : (z.x_max : ℚ) < (z.x_min : ℚ) := by exact_mod_cast hz
  linarith

/-- Witness for the amended C7 at a concrete inverted zone. -/
theorem zone_construction_never_fails_witness :
    ZoneDetector.initE ENTRY_ZONE EXIT_ZONE wBadZone 100 100 =
      Except.ok (ZoneDetector.init ENTRY_ZONE EXIT_ZONE wBadZone 100 100) ∧
    (ZoneDetector.init ENTRY_ZONE EXIT_ZONE wBadZone 100 100).entry_zone =
      calculate_zone_pixels ENTRY_ZONE 100 100 ∧
    (ZoneDetector.init ENTRY_ZONE EXIT_ZONE wBadZone 100 100).exit_zone =
      calculate_zone_pixels EXIT_ZONE 100 100 ∧
    (ZoneDetector.init ENTRY_ZONE EXIT_ZONE wBadZone 100 100).checkout_zone =
      calculate_zone_pixels wBadZone 100 100 ∧
    ZoneDetector.point_in_zone (45, 80) ⟨60, 30, 0, 100⟩ = false :=
  zone_construction_never_fails ENTRY_ZONE EXIT_ZONE wBadZone 100 100
    ⟨60, 30, 0, 100⟩ (45, 80) (by with_unfolding_all decide)

/-- **C8** counterexample: on the 10-position history with five points
at x = 0 and five at x = 20, the x-variance is 100, so
`Track.is_stationary` (variance < 50) is false while the analyzer's
`_check_if_stationary` (std-dev < 20, i.e. variance < 400) is true —
the two stationarity predicates do not agree on every position
history. -/
theorem c8_stationarity_predicates_disagree :
    (Track.is_stationary { track_id := 1, positions := wSplitPositions } = false) ∧
    (check_if_stationary { track_id := 1, positions := wSplitPositions } = true) := by
  with_unfolding_all decide

/-- **C8** (amended): the two stationarity predicates compute
different rules — `Track.is_stationary` uses the last 10 positions
with variance < 50, the Behavior Classifier the last `min(30, n)`
positions with std-dev < 20 (variance < 400) — and they can disagree;
what does hold is that both reject histories of fewer than 10
positions, and on histories of exactly 10 positions (where both
examine the same window) Track-stationarity implies
Classifier-stationarity, the thresholds being nested (50 ≤ 400). -/
theorem stationarity_variants_relation :
    (∀ t : Track, t.positions.length < 10 →
      t.is_stationary = false ∧ check_if_stationary t = false) ∧
    (∀ t : Track, t.positions.length = 10 →
      t.is_stationary = true → check_if_stationary t = true) := by
  constructor
  · intro t h
    constructor
    · unfold Track.is_stationary
      rw [if_pos h]
    · unfold check_if_stationary
      rw [if_pos h]
  · intro t hlen hstat
    unfold Track.is_stationary at hstat
    rw [if_neg (by omega)] at hstat
    unfold check_if_stationary
    rw [if_neg (by omega)]
    have hmin : min 30 t.positions.length = 10 := by
      rw [hlen]; exact min_eq_right (by norm_num)
    dsimp only at hstat ⊢
    rw [hmin]
    simp only [Bool.and_eq_true, decide_eq_true_eq] at hstat ⊢
    exact ⟨by linarith [hstat.1], by linarith [hstat.2]⟩

/-- Witness for the amended C8: a 9-position history is stationary for
neither predicate; a 10-position constant history is stationary for
the Track predicate and hence for the Classifier predicate. -/
theorem stationarity_variants_relation_witness :
    (Track.is_stationary { track_id := 1, positions := List.replicate 9 ((5:ℚ), (5:ℚ)) } = false ∧
     check_if_stationary { track_id := 1, positions := List.replicate 9 ((5:ℚ), (5:ℚ)) } = false) ∧
    check_if_stationary { track_id := 1, positions := List.replicate 10 ((5:ℚ), (5:ℚ)) } = true :=
  ⟨stationarity_variants_relation.1 _ (by with_unfolding_all decide),
   stationarity_variants_relation.2 { track_id := 1, positions := List.replicate 10 ((5:ℚ), (5:ℚ)) }
     (by with_unfolding_all decide) (by with_unfolding_all decide)⟩

/-- Modelled from the claim's wording: a result counts as a purchaser
when its label equals Purchasing, or its `visitedCheckout` flag is
true, or `"checkout"` appears in its `zonesVisited` list, or its
`madePurchase` flag is true — the union of the three conditions. -/
def specPurchaser (r : BehaviorResult) : Prop :=
  r.behavior = "purchasing" ∨ r.visited_checkout = true ∨
    "checkout" ∈ r.zones_visited ∨ r.made_purchase = true

instance (r : BehaviorResult) : Decidable (specPurchaser r) := by
  unfold specPurchaser; infer_instance

/-- Helper for C9: the summary loop's purchaser test is exactly the
claimed union of conditions. -/
theorem isPurchaser_eq_spec (r : BehaviorResult) :
    isPurchaser r = decide (specPurchaser r) := by
  unfold isPurchaser checkoutFlag specPurchaser
  by_cases h1 : r.behavior = "purchasing" <;>
  by_cases h2 : r.made_purchase = true <;>
  by_cases h3 : r.visited_checkout = true <;>
  by_cases h4 : "checkout" ∈ r.zones_visited <;>
  simp [h1, h2, h3, h4]

/-- **C9** (confirmed): on every non-empty batch, `generate_summary`
counts as purchasers exactly the results satisfying the union
label = Purchasing ∪ visitedCheckout ∪ "checkout" ∈ zonesVisited ∪
madePurchase, and reports
`conversionRate = purchasers / totalVisitors * 100` rounded to two
decimals. -/
theorem summary_purchasers_conversion (results : List BehaviorResult)
    (h : results ≠ []) :
    (generate_summary results).total_visitors = results.length ∧
    (generate_summary results).purchasers =
      (results.filter (fun r => decide (specPurchaser r))).length ∧
    (generate_summary results).conversion_rate =
      round2 (((results.filter (fun r => decide (specPurchaser r))).length : ℚ) /
        (results.length : ℚ) * 100) := by
  have hfilter : results.filter isPurchaser =
      results.filter (fun r => decide (specPurchaser r)) :=
    List.filter_congr (fun r _ => isPurchaser_eq_spec r)
  cases results with
  | nil => exact absurd rfl h
  | cons a l =>
    unfold generate_summary
    simp only [List.isEmpty_cons, Bool.false_eq_true, if_false]
    rw [hfilter]
    exact ⟨trivial, rfl, rfl⟩

/-- The concrete batch used by the C9 witness: a Purchasing label, a
browser who passed through the checkout zone, and an idle visitor. -/
def wResults : List BehaviorResult :=
  [{ behavior := "purchasing" },
   { behavior := "browsing", zones_visited := ["checkout"] },
   { behavior := "idle" }]

/-- Witness for C9 at the concrete three-result batch. -/
theorem summary_purchasers_conversion_witness :
    (generate_summary wResults).total_visitors = wResults.length ∧
    (generate_summary wResults).purchasers =
      (wResults.filter (fun r => decide (specPurchaser r))).length ∧
    (generate_summary wResults).conversion_rate =
      round2 (((wResults.filter (fun r => decide (specPurchaser r))).length : ℚ) /
        (wResults.length : ℚ) * 100) :=
  summary_purchasers_conversion wResults (by with_unfolding_all decide)

/-! ## C4: track-id monotonicity -/

/-- The track ids currently stored, in creation order (tracks are only
ever appended, never removed from `self.tracks`). -/
def trackIds (s : PersonTracker) : List ℕ := s.tracks.map Track.track_id

theorem Track.update_track_id (t : Track) (d : Detection) (f : ℕ) (ts : ℚ) :
    (Track.update t d f ts).track_id = t.track_id := by
  unfold Track.update
  dsimp only
  split <;> rfl

/-- Setting index `n` to an element with the same `f`-image leaves the
`f`-image of the list unchanged. -/
theorem map_set_eq {α β : Type _} (f : α → β) :
    ∀ (l : List α) (n : ℕ) (a : α), (∀ x ∈ l.get? n, f a = f x) →
      (l.set n a).map f = l.map f
  | [], _, _, _ => rfl
  | b :: l, 0, a, h => by
    simp only [List.set, List.map_cons, List.map]
    rw [h b rfl]
  | b :: l, n + 1, a, h => by
    simp only [List.set, List.map_cons]
    rw [map_set_eq f l n a h]

/-- An index-dependent rewrite of elements that preserves their
`f`-image preserves the `f`-image of the list. -/
theorem map_mapIdx_eq {α β : Type _} (f : α → β) (g : ℕ → α → α)
    (h : ∀ i x, f (g i x) = f x) (l : List α) :
    (l.mapIdx g).map f = l.map f := by
  rw [List.mapIdx_eq_enum_map, List.map_map]
  have hfun : (f ∘ Function.uncurry g) = fun p : ℕ × α => f p.2 := by
    funext p
    exact h p.1 p.2
  rw [hfun]
  conv_rhs => rw [← List.enum_map_snd l, List.map_map]
  rfl

/-- The greedy loop only updates tracks in place: any per-track field
untouched by `Track.update` (id, idle duration, …) keeps its stored
sequence. -/
theorem greedyLoop_map {α : Type _} (f : Track → α)
    (hf : ∀ (t : Track) (d : Detection) (n : ℕ) (ts' : ℚ),
      f (Track.update t d n ts') = f t)
    (m : ℕ → ℕ → ℚ) (thr : ℚ) (fc : ℕ) (ts : ℚ) (dets : List Detection) :
    ∀ (fuel : ℕ) (tracks : List Track) (pairs : List (ℕ × ℕ)),
      ((greedyLoop m thr fc ts dets fuel (tracks, pairs)).1).map f =
        tracks.map f := by
  intro fuel
  induction fuel with
  | zero => intro tracks pairs; rfl
  | succ n ih =>
    intro tracks pairs
    unfold greedyLoop
    dsimp only
    split
    · rfl
    · split
      · rfl
      · rename_i t d heq
        rw [ih]
        cases hg : tracks.get? t with
        | none => simp [hg]
        | some tr =>
          cases hd : dets.get? d with
          | none => simp [hg, hd]
          | some det =>
            simp only [hg, hd]
            exact map_set_eq f tracks t _
              (fun x hx => by
                rw [hf]
                rw [hg] at hx
                cases hx
                rfl)

theorem create_track_trackIds (s : PersonTracker) (d : Detection) (ts : ℚ) :
    trackIds (s.create_track d ts) = trackIds s ++ [s.next_track_id] := by
  unfold PersonTracker.create_track trackIds
  dsimp only
  rw [List.map_append]
  simp [Track.update_track_id]

/-- The id invariant: stored ids strictly increase in creation order
and all sit below the `next_track_id` counter. -/
def IdInv (s : PersonTracker) : Prop :=
  (trackIds s).Chain' (· < ·) ∧ ∀ i ∈ trackIds s, i < s.next_track_id

theorem IdInv_create (s : PersonTracker) (d : Detection) (ts : ℚ)
    (h : IdInv s) : IdInv (s.create_track d ts) := by
  obtain ⟨hc, hb⟩ := h
  have hids := create_track_trackIds s d ts
  constructor
  · rw [hids]
    refine List.Chain'.append hc (List.chain'_singleton _) ?_
    intro x hx y hy
    simp only [List.head?_cons, Option.mem_def, Option.some.injEq] at hy
    subst hy
    obtain ⟨hne, hxeq⟩ := List.mem_getLast?_eq_getLast hx
    subst hxeq
    exact hb _ (List.getLast_mem hne)
  · rw [hids]
    intro i hi
    rcases List.mem_append.1 hi with hmem | hmem
    · exact (hb i hmem).trans (Nat.lt_succ_self _)
    · simp only [List.mem_singleton] at hmem
      subst hmem
      exact Nat.lt_succ_self _

theorem IdInv_foldl_create {β : Type _} (g : β → Detection) (ts : ℚ) :
    ∀ (ds : List β) (s : PersonTracker), IdInv s →
      IdInv (ds.foldl (fun acc p => acc.create_track (g p) ts) s)
  | [], _, h => h
  | _ :: ds, s, h => IdInv_foldl_create g ts ds _ (IdInv_create s _ ts h)

theorem IdInv_match (s : PersonTracker) (dets : List Detection) (ts : ℚ)
    (h : IdInv s) : IdInv (s.match_detections_to_tracks dets ts) := by
  unfold PersonTracker.match_detections_to_tracks
  dsimp only
  apply IdInv_foldl_create (g := Prod.snd)
  have htr :
      ((matchResult s.tracks dets s.iou_threshold s.frame_count ts).1.mapIdx
        (fun i tr =>
          if !((matchResult s.tracks dets s.iou_threshold s.frame_count
              ts).2.map Prod.fst).contains i && tr.is_active
          then tr.mark_lost else tr)).map Track.track_id =
        s.tracks.map Track.track_id := by
    rw [map_mapIdx_eq Track.track_id _ (fun i x => by split <;> rfl)]
    unfold matchResult
    exact greedyLoop_map Track.track_id Track.update_track_id _ _ _ _ _ _ _ _
  unfold IdInv trackIds at h ⊢
  dsimp only
  rw [htr]
  exact h

theorem IdInv_remove_old (s : PersonTracker) (h : IdInv s) :
    IdInv s.remove_old_tracks := by
  have htr : trackIds s.remove_old_tracks = trackIds s := by
    unfold PersonTracker.remove_old_tracks trackIds
    dsimp only
    rw [List.map_map]
    exact List.map_congr_left (fun x _ => by
      simp only [Function.comp_apply]
      split
      · split <;> rfl
      · rfl)
  unfold IdInv at h ⊢
  rw [htr]
  exact h

theorem IdInv_update (s : PersonTracker) (dets : List Detection) (ts : ℚ)
    (h : IdInv s) : IdInv (s.update dets ts).1 := by
  unfold PersonTracker.update
  dsimp only
  apply IdInv_remove_old
  split
  · exact IdInv_foldl_create (g := fun d => d) ts _ _ h
  · exact IdInv_match _ _ _ h

theorem IdInv_run :
    ∀ (inputs : List (List Detection × ℚ)) (s : PersonTracker), IdInv s →
      IdInv (s.run inputs)
  | [], _, h => h
  | _ :: inputs, s, h => IdInv_run inputs _ (IdInv_update s _ _ h)

/-- **C4** (confirmed): within one tracker instance, over every
sequence of `update()` calls from a fresh `PersonTracker`, the stored
track ids are strictly increasing in creation order (tracks are only
appended and never deleted, so this is the full id-assignment history)
and therefore no id is ever reused. -/
theorem track_ids_strictly_increasing (ma mh : ℕ) (thr : ℚ)
    (inputs : List (List Detection × ℚ)) :
    (trackIds ((PersonTracker.init ma mh thr).run inputs)).Chain' (· < ·) ∧
    (trackIds ((PersonTracker.init ma mh thr).run inputs)).Nodup := by
  have h : IdInv ((PersonTracker.init ma mh thr).run inputs) :=
    IdInv_run inputs _
      ⟨List.chain'_nil, by intro i hi; simp [trackIds, PersonTracker.init] at hi⟩
  refine ⟨h.1, ?_⟩
  have hp := List.chain'_iff_pairwise.mp h.1
  exact hp.imp (fun hlt => Nat.ne_of_lt hlt)


/-! ## C10: the idle rule can never fire -/


theorem Track.update_idle_duration (t : Track) (d : Detection) (f : ℕ) (ts : ℚ) :
    (Track.update t d f ts).idle_duration = t.idle_duration := by
  unfold Track.update
  dsimp only
  split <;> rfl

def IdleZero (s : PersonTracker) : Prop :=
  ∀ t ∈ s.tracks, t.idle_duration = 0

theorem idleZero_of_map_eq {l l' : List Track}
    (h : l'.map Track.idle_duration = l.map Track.idle_duration)
    (hl : ∀ t ∈ l, t.idle_duration = 0) : ∀ t ∈ l', t.idle_duration = 0 := by
  intro t ht
  have hmem : t.idle_duration ∈ l'.map Track.idle_duration :=
    List.mem_map_of_mem _ ht
  rw [h] at hmem
  obtain ⟨u, hu, he⟩ := List.mem_map.1 hmem
  rw [← he]
  exact hl u hu

theorem IdleZero_create (s : PersonTracker) (d : Detection) (ts : ℚ)
    (h : IdleZero s) : IdleZero (s.create_track d ts) := by
  unfold PersonTracker.create_track
  intro t ht
  dsimp only at ht
  rcases List.mem_append.1 ht with hmem | hmem
  · exact h t hmem
  · simp only [List.mem_singleton] at hmem
    subst hmem
    rw [Track.update_idle_duration]

theorem IdleZero_foldl_create {β : Type _} (g : β → Detection) (ts : ℚ) :
    ∀ (ds : List β) (s : PersonTracker), IdleZero s →
      IdleZero (ds.foldl (fun acc p => acc.create_track (g p) ts) s)
  | [], _, h => h
  | _ :: ds, s, h => IdleZero_foldl_create g ts ds _ (IdleZero_create s _ ts h)

theorem IdleZero_match (s : PersonTracker) (dets : List Detection) (ts : ℚ)
    (h : IdleZero s) : IdleZero (s.match_detections_to_tracks dets ts) := by
  unfold PersonTracker.match_detections_to_tracks
  dsimp only
  apply IdleZero_foldl_create (g := Prod.snd)
  have htr :
      ((matchResult s.tracks dets s.iou_threshold s.frame_count ts).1.mapIdx
        (fun i tr =>
          if !((matchResult s.tracks dets s.iou_threshold s.frame_count
              ts).2.map Prod.fst).contains i && tr.is_active
          then tr.mark_lost else tr)).map Track.idle_duration =
        s.tracks.map Track.idle_duration := by
    rw [map_mapIdx_eq Track.idle_duration _ (fun i x => by split <;> rfl)]
    unfold matchResult
    exact greedyLoop_map Track.idle_duration Track.update_idle_duration _ _ _ _ _ _ _ _
  exact idleZero_of_map_eq htr h

theorem IdleZero_remove_old (s : PersonTracker) (h : IdleZero s) :
    IdleZero s.remove_old_tracks := by
  unfold PersonTracker.remove_old_tracks
  have htr : (s.tracks.map fun tr =>
      if tr.frames_without_detection > s.max_age then
        if tr.is_active && tr.total_frames ≥ s.min_hits then
          tr.mark_exited 0 s.frame_count
        else tr
      else tr).map Track.idle_duration = s.tracks.map Track.idle_duration := by
    rw [List.map_map]
    exact List.map_congr_left (fun x _ => by
      simp only [Function.comp_apply]
      split
      · split <;> rfl
      · rfl)
  exact idleZero_of_map_eq htr h

theorem IdleZero_update (s : PersonTracker) (dets : List Detection) (ts : ℚ)
    (h : IdleZero s) : IdleZero (s.update dets ts).1 := by
  unfold PersonTracker.update
  dsimp only
  apply IdleZero_remove_old
  split
  · exact IdleZero_foldl_create (g := fun d => d) ts _ _ h
  · exact IdleZero_match _ _ _ h

theorem IdleZero_run :
    ∀ (inputs : List (List Detection × ℚ)) (s : PersonTracker), IdleZero s →
      IdleZero (s.run inputs)
  | [], _, h => h
  | _ :: inputs, s, h => IdleZero_run inputs _ (IdleZero_update s _ _ h)

theorem check_idle_empty (s : AlertSystem) (tracks : List Track) (ts : ℚ)
    (h : ∀ t ∈ tracks, t.idle_duration = 0) :
    s.check_idle_behavior tracks ts = [] := by
  unfold AlertSystem.check_idle_behavior
  rw [List.map_eq_nil_iff, List.filter_eq_nil_iff]
  intro t ht
  simp only [h t ht, Bool.and_eq_true, decide_eq_true_eq]
  intro hcon
  exact absurd hcon.1.2 (by norm_num)

theorem check_crowd_alert_type (s : AlertSystem) (tracks : List Track)
    (ts : ℚ) (a : Alert) (h : (s.check_crowd tracks ts).2 = some a) :
    a.alert_type = AlertType.crowd_detected := by
  unfold AlertSystem.check_crowd at h
  dsimp only at h
  split at h
  · split at h
    · split at h
      · exact absurd h (by simp)
      · exact absurd h (by simp)
    · simp only [Option.some.injEq] at h
      subst h
      rfl
  · exact absurd h (by simp)

theorem check_loitering_alert_types (s : AlertSystem) (tracks : List Track)
    (ts : ℚ) : ∀ a ∈ s.check_loitering tracks ts,
      a.alert_type = AlertType.loitering := by
  unfold AlertSystem.check_loitering
  intro a ha
  obtain ⟨t, _, he⟩ := List.mem_map.1 ha
  subst he
  rfl

/-- **C10** (confirmed): `Track.idle_duration` starts at 0 and no
tracker operation ever assigns it, so every track held by a tracker
after any sequence of `update()` calls has `idle_duration = 0`, the
guard `idle_duration > 60.0` of `_check_idle_behavior` is false for
every active track, and no `check_alerts` call on the tracker's active
tracks ever emits a SuspiciousBehavior alert. -/
theorem idle_rule_never_fires (ma mh : ℕ) (thr : ℚ)
    (inputs : List (List Detection × ℚ)) (s : AlertSystem) (ts : ℚ) :
    (((PersonTracker.init ma mh thr).run inputs).tracks.all
      (fun t => decide (t.idle_duration = 0))) = true ∧
    ((s.check_alerts
        ((PersonTracker.init ma mh thr).run inputs).get_active_tracks ts).2.filter
      (fun a => a.alert_type == AlertType.suspicious_behavior)) = [] := by
  have hz : IdleZero ((PersonTracker.init ma mh thr).run inputs) :=
    IdleZero_run inputs _ (by intro t ht; simp [PersonTracker.init] at ht)
  have hza : ∀ t ∈ ((PersonTracker.init ma mh thr).run inputs).get_active_tracks,
      t.idle_duration = 0 :=
    fun t ht => hz t (List.mem_of_mem_filter ht)
  constructor
  · rw [List.all_eq_true]
    intro t ht
    exact decide_eq_true (hz t ht)
  · unfold AlertSystem.check_alerts
    dsimp only
    rw [check_idle_empty _ _ _ hza, List.append_nil, List.filter_append]
    have h1 : ((s.check_crowd
        ((PersonTracker.init ma mh thr).run inputs).get_active_tracks ts).2.toList.filter
        (fun a => a.alert_type == AlertType.suspicious_behavior)) = [] := by
      rw [List.filter_eq_nil_iff]
      intro a ha
      rw [Option.mem_toList, Option.mem_def] at ha
      rw [check_crowd_alert_type _ _ _ _ ha]
      simp
    have h2 : ∀ s' : AlertSystem, (((AlertSystem.check_loitering s'
        ((PersonTracker.init ma mh thr).run inputs).get_active_tracks ts)).filter
        (fun a => a.alert_type == AlertType.suspicious_behavior)) = [] := by
      intro s'
      rw [List.filter_eq_nil_iff]
      intro a ha
      rw [check_loitering_alert_types _ _ _ a ha]
      simp
    rw [h1, h2]
    rfl


/-! ## C3: the greedy assignment commits a valid matching -/


theorem scanMax_spec (m : ℕ → ℕ → ℚ) (T D : ℕ) (mt md : List ℕ) :
    ∀ t d, (scanMax m T D mt md).2 = some (t, d) →
      (scanMax m T D mt md).1 = m t d ∧ t < T ∧ d < D ∧ t ∉ mt ∧ d ∉ md := by
  unfold scanMax
  refine List.foldlRecOn (List.range T) _ ((0 : ℚ), (none : Option (ℕ × ℕ)))
    (motive := fun acc => ∀ t d, acc.2 = some (t, d) →
      acc.1 = m t d ∧ t < T ∧ d < D ∧ t ∉ mt ∧ d ∉ md) ?_ ?_
  · intro t d h
    simp at h
  · intro acc hacc tt htt
    split
    · exact hacc
    · rename_i hmt
      refine List.foldlRecOn (List.range D) _ acc
        (motive := fun acc2 => ∀ t d, acc2.2 = some (t, d) →
          acc2.1 = m t d ∧ t < T ∧ d < D ∧ t ∉ mt ∧ d ∉ md) hacc ?_
      intro acc2 hacc2 dd hdd
      split
      · exact hacc2
      · rename_i hmd
        split
        · rename_i hgt
          intro t d h
          simp only [Option.some.injEq, Prod.mk.injEq] at h
          obtain ⟨rfl, rfl⟩ := h
          refine ⟨rfl, List.mem_range.1 htt, List.mem_range.1 hdd, ?_, ?_⟩
          · exact fun hmem => hmt (List.elem_iff.mpr hmem)
          · exact fun hmem => hmd (List.elem_iff.mpr hmem)
        · exact hacc2

/-- The validity invariant of the committed pair list: distinct rows,
distinct columns, every pair at or above the threshold and in
bounds. -/
def GoodPairs (m : ℕ → ℕ → ℚ) (thr : ℚ) (T D : ℕ)
    (pairs : List (ℕ × ℕ)) : Prop :=
  (pairs.map Prod.fst).Nodup ∧ (pairs.map Prod.snd).Nodup ∧
  ∀ p ∈ pairs, thr ≤ m p.1 p.2 ∧ p.1 < T ∧ p.2 < D

theorem greedyLoop_pairs (m : ℕ → ℕ → ℚ) (thr : ℚ) (fc : ℕ) (ts : ℚ)
    (dets : List Detection) (T : ℕ) :
    ∀ (fuel : ℕ) (tracks : List Track) (pairs : List (ℕ × ℕ)),
      tracks.length = T →
      GoodPairs m thr T dets.length pairs →
      GoodPairs m thr T dets.length
        ((greedyLoop m thr fc ts dets fuel (tracks, pairs)).2) := by
  intro fuel
  induction fuel with
  | zero => intro _ _ _ h; exact h
  | succ n ih =>
    intro tracks pairs hT h
    unfold greedyLoop
    dsimp only
    split
    · exact h
    · rename_i hthr
      split
      · exact h
      · rename_i t d heq
        have hs := scanMax_spec m tracks.length dets.length
          (pairs.map Prod.fst) (pairs.map Prod.snd) t d heq
        obtain ⟨hval, htT, hdD, hmt, hmd⟩ := hs
        rw [hval] at hthr
        apply ih
        · cases hg : tracks.get? t <;> cases hd : dets.get? d <;>
            simp [List.length_set, hT]
        · refine ⟨?_, ?_, ?_⟩
          · simp only [List.map_cons]
            exact List.Nodup.cons hmt h.1
          · simp only [List.map_cons]
            exact List.Nodup.cons hmd h.2.1
          · intro p hp
            rcases List.mem_cons.1 hp with hpe | hpm
            · subst hpe
              exact ⟨le_of_not_lt hthr, hT ▸ htT, hdD⟩
            · exact h.2.2 p hpm

theorem matchResult_pairs (tracks : List Track) (dets : List Detection)
    (thr : ℚ) (fc : ℕ) (ts : ℚ) :
    GoodPairs (iouEntry tracks dets) thr tracks.length dets.length
      ((matchResult tracks dets thr fc ts).2) := by
  unfold matchResult
  exact greedyLoop_pairs _ thr fc ts dets tracks.length (tracks.length + 1)
    tracks [] rfl ⟨List.nodup_nil, List.nodup_nil, by intro p hp; cases hp⟩

/-- **C3** (confirmed): for any single `update()` call — any prior
track list, any detection list, any positive IoU threshold (with a
non-positive threshold CPython's loop would never terminate, see
`greedyLoop`) — the greedy assignment commits a valid matching: no
track index and no detection index appears in two committed pairs, and
every committed pair's IoU-matrix entry is at least the threshold. -/
theorem greedy_assignment_valid_matching (tracks : List Track)
    (dets : List Detection) (thr : ℚ) (fc : ℕ) (ts : ℚ) (_h : 0 < thr) :
    (((matchResult tracks dets thr fc ts).2).map Prod.fst).Nodup ∧
    (((matchResult tracks dets thr fc ts).2).map Prod.snd).Nodup ∧
    ∀ p ∈ (matchResult tracks dets thr fc ts).2,
      thr ≤ iouEntry tracks dets p.1 p.2 ∧
      p.1 < tracks.length ∧ p.2 < dets.length :=
  matchResult_pairs tracks dets thr fc ts

/-- Two well-separated tracks and two matching detections, used by the
C3 witness. -/
def wMatchTracks : List Track :=
  [Track.update { track_id := 1 } wDet 1 1,
   Track.update { track_id := 2 } { bbox := (100, 100, 110, 110) } 1 1]

def wMatchDets : List Detection :=
  [{ bbox := (0, 0, 10, 12) }, { bbox := (100, 100, 110, 112) }]

/-- Witness for C3 at the concrete two-track/two-detection state with
the default threshold 0.3. -/
theorem greedy_assignment_valid_matching_witness :
    (((matchResult wMatchTracks wMatchDets (3/10) 2 2).2).map Prod.fst).Nodup ∧
    (((matchResult wMatchTracks wMatchDets (3/10) 2 2).2).map Prod.snd).Nodup ∧
    ∀ p ∈ (matchResult wMatchTracks wMatchDets (3/10) 2 2).2,
      (3/10 : ℚ) ≤ iouEntry wMatchTracks wMatchDets p.1 p.2 ∧
      p.1 < wMatchTracks.length ∧ p.2 < wMatchDets.length :=
  greedy_assignment_valid_matching wMatchTracks wMatchDets (3/10) 2 2
    (by norm_num)

/-! ## C6: crowd-alert dedup and resolve semantics -/

theorem countCrowdUnres_append (l1 l2 : List Alert) :
    countCrowdUnres (l1 ++ l2) = countCrowdUnres l1 + countCrowdUnres l2 := by
  unfold countCrowdUnres
  rw [List.filter_append, List.length_append]

theorem countCrowd_append (l1 l2 : List Alert) :
    countCrowd (l1 ++ l2) = countCrowd l1 + countCrowd l2 := by
  unfold countCrowd
  rw [List.filter_append, List.length_append]

theorem foldl_process_active (news : List Alert) :
    ∀ s : AlertSystem,
      (news.foldl AlertSystem.process_alert s).active_alerts =
        s.active_alerts ++ news := by
  induction news with
  | nil => intro s; simp
  | cons a l ih =>
    intro s
    rw [List.foldl_cons, ih]
    unfold AlertSystem.process_alert
    dsimp only
    rw [List.append_assoc]
    rfl

theorem length_filter_set {α : Type _} (p : α → Bool) :
    ∀ (l : List α) (n : ℕ) (b : α), (∀ x ∈ l.get? n, p b = p x) →
      ((l.set n b).filter p).length = (l.filter p).length
  | [], _, _, _ => rfl
  | a :: l, 0, b, h => by
    have hab : p b = p a := h a rfl
    simp only [List.set, List.filter_cons, hab]
    split <;> simp
  | a :: l, n + 1, b, h => by
    simp only [List.set, List.filter_cons]
    split <;> simp [length_filter_set p l n b h]

theorem check_idle_alert_types (s : AlertSystem) (tracks : List Track)
    (ts : ℚ) : ∀ a ∈ s.check_idle_behavior tracks ts,
      a.alert_type = AlertType.suspicious_behavior := by
  unfold AlertSystem.check_idle_behavior
  intro a ha
  obtain ⟨t, _, he⟩ := List.mem_map.1 ha
  subst he
  rfl

theorem countCrowdUnres_loiter_idle (s' : AlertSystem) (tracks : List Track)
    (ts : ℚ) :
    countCrowdUnres (s'.check_loitering tracks ts) = 0 ∧
    countCrowdUnres (s'.check_idle_behavior tracks ts) = 0 ∧
    countCrowd (s'.check_loitering tracks ts) = 0 ∧
    countCrowd (s'.check_idle_behavior tracks ts) = 0 := by
  refine ⟨?_, ?_, ?_, ?_⟩ <;>
    first
      | (unfold countCrowdUnres
         rw [List.length_eq_zero, List.filter_eq_nil_iff]
         intro a ha
         first
           | rw [check_loitering_alert_types _ _ _ a ha]; simp
           | rw [check_idle_alert_types _ _ _ a ha]; simp)
      | (unfold countCrowd
         rw [List.length_eq_zero, List.filter_eq_nil_iff]
         intro a ha
         first
           | rw [check_loitering_alert_types _ _ _ a ha]; simp
           | rw [check_idle_alert_types _ _ _ a ha]; simp)


theorem check_crowd_ge_found (s : AlertSystem) (tracks : List Track) (ts : ℚ)
    (hge : tracks.length ≥ s.crowd_threshold) (i : ℕ)
    (hfind : s.active_alerts.findIdx?
      (fun a => a.alert_type == AlertType.crowd_detected && !a.resolved) = some i) :
    ∃ a, s.active_alerts.get? i = some a ∧
      a.alert_type = AlertType.crowd_detected ∧ a.resolved = false ∧
      s.check_crowd tracks ts =
        (s.active_alerts.set i
          { a with details := { a.details with current_count := some tracks.length } },
         none) := by
  obtain ⟨hlen, hp, -⟩ := List.findIdx?_eq_some_iff_getElem.1 hfind
  have hget : s.active_alerts.get? i = some s.active_alerts[i] := by
    rw [List.get?_eq_getElem?, List.getElem?_eq_getElem hlen]
  refine ⟨s.active_alerts[i], hget, ?_, ?_, ?_⟩
  · simp only [Bool.and_eq_true, beq_iff_eq] at hp
    exact hp.1
  · simp only [Bool.and_eq_true, Bool.not_eq_true'] at hp
    exact hp.2
  · unfold AlertSystem.check_crowd
    dsimp only
    rw [if_pos hge, hfind]
    dsimp only
    rw [hget]

theorem check_crowd_ge_none (s : AlertSystem) (tracks : List Track) (ts : ℚ)
    (hge : tracks.length ≥ s.crowd_threshold)
    (hfind : s.active_alerts.findIdx?
      (fun a => a.alert_type == AlertType.crowd_detected && !a.resolved) = none) :
    countCrowdUnres s.active_alerts = 0 ∧
    s.check_crowd tracks ts =
      (s.active_alerts,
       some { alert_id := s.total_alerts
              alert_type := AlertType.crowd_detected
              level := AlertLevel.warning
              timestamp := ts
              message := "Crowd detected: " ++ toString tracks.length ++ " people"
              details := { people_count := some tracks.length
                           threshold := some (s.crowd_threshold : ℚ) } }) := by
  constructor
  · unfold countCrowdUnres
    rw [List.length_eq_zero, List.filter_eq_nil_iff]
    intro a ha
    rw [List.findIdx?_eq_none_iff.1 hfind a ha]
    exact Bool.false_ne_true
  · unfold AlertSystem.check_crowd
    dsimp only
    rw [if_pos hge, hfind]

theorem check_crowd_lt (s : AlertSystem) (tracks : List Track) (ts : ℚ)
    (hlt : tracks.length < s.crowd_threshold) :
    s.check_crowd tracks ts =
      (s.active_alerts.map fun a =>
        if a.alert_type == AlertType.crowd_detected && !a.resolved
        then a.resolve else a,
       none) := by
  unfold AlertSystem.check_crowd
  dsimp only
  rw [if_neg (not_le.mpr hlt)]

theorem countCrowdUnres_resolve_map (l : List Alert) :
    countCrowdUnres (l.map fun a =>
      if a.alert_type == AlertType.crowd_detected && !a.resolved
      then a.resolve else a) = 0 := by
  unfold countCrowdUnres
  rw [List.length_eq_zero, List.filter_eq_nil_iff]
  intro b hb
  obtain ⟨a, _, he⟩ := List.mem_map.1 hb
  subst he
  by_cases hpa : (a.alert_type == AlertType.crowd_detected && !a.resolved) = true
  · simp only [hpa, if_true, Alert.resolve]
    simp
  · simp only [hpa, if_false]
    exact hpa


theorem countCrowdUnres_set (l : List Alert) (n : ℕ) (b : Alert)
    (h : ∀ x ∈ l.get? n,
      (b.alert_type == AlertType.crowd_detected && !b.resolved) =
      (x.alert_type == AlertType.crowd_detected && !x.resolved)) :
    countCrowdUnres (l.set n b) = countCrowdUnres l :=
  length_filter_set _ l n b h

theorem countCrowd_set (l : List Alert) (n : ℕ) (b : Alert)
    (h : ∀ x ∈ l.get? n,
      (b.alert_type == AlertType.crowd_detected) =
      (x.alert_type == AlertType.crowd_detected)) :
    countCrowd (l.set n b) = countCrowd l :=
  length_filter_set _ l n b h

theorem unresolvedCrowd_check_alerts_le (s : AlertSystem) (tracks : List Track)
    (ts : ℚ) :
    unresolvedCrowd (s.check_alerts tracks ts).1 ≤ max (unresolvedCrowd s) 1 := by
  unfold AlertSystem.check_alerts unresolvedCrowd
  dsimp only
  rw [foldl_process_active]
  dsimp only
  rw [countCrowdUnres_append, countCrowdUnres_append, countCrowdUnres_append]
  obtain ⟨hl, hi, -, -⟩ := countCrowdUnres_loiter_idle
    { s with active_alerts := (s.check_crowd tracks ts).1 } tracks ts
  rw [hl, hi]
  by_cases hge : tracks.length ≥ s.crowd_threshold
  · cases hfind : s.active_alerts.findIdx?
        (fun a => a.alert_type == AlertType.crowd_detected && !a.resolved) with
    | none =>
      obtain ⟨hzero, heq⟩ := check_crowd_ge_none s tracks ts hge hfind
      rw [heq]
      dsimp only [Option.toList]
      rw [hzero]
      have hone : countCrowdUnres
          [{ alert_id := s.total_alerts
             alert_type := AlertType.crowd_detected
             level := AlertLevel.warning
             timestamp := ts
             message := "Crowd detected: " ++ toString tracks.length ++ " people"
             details := { people_count := some tracks.length
                          threshold := some (s.crowd_threshold : ℚ) } }] = 1 := by
        simp [countCrowdUnres, List.filter_cons]
      rw [hone]
      exact le_max_right _ _
    | some i =>
      obtain ⟨a, hget, -, -, heq⟩ := check_crowd_ge_found s tracks ts hge i hfind
      rw [heq]
      dsimp only [Option.toList]
      rw [countCrowdUnres_set s.active_alerts i _ (fun x hx => by
        rw [hget] at hx
        cases hx
        rfl)]
      have h0 : countCrowdUnres ([] : List Alert) = 0 := rfl
      rw [h0]
      simp
  · rw [check_crowd_lt s tracks ts (not_le.1 hge)]
    dsimp only
    rw [countCrowdUnres_resolve_map]
    simp [countCrowdUnres]


theorem unresolvedCrowd_run_le :
    ∀ (inputs : List (List Track × ℚ)) (s : AlertSystem),
      unresolvedCrowd s ≤ 1 → unresolvedCrowd (s.run inputs) ≤ 1
  | [], _, h => h
  | _ :: inputs, s, h =>
    unresolvedCrowd_run_le inputs _
      ((unresolvedCrowd_check_alerts_le s _ _).trans (max_le h le_rfl))

theorem crowd_retrigger (s : AlertSystem) (tracks : List Track) (ts : ℚ)
    (hge : tracks.length ≥ s.crowd_threshold) (hex : 0 < unresolvedCrowd s) :
    crowdAlerts (s.check_alerts tracks ts).1 = crowdAlerts s ∧
    (s.check_alerts tracks ts).2.filter
      (fun a => a.alert_type == AlertType.crowd_detected) = [] ∧
    ∃ i a, s.active_alerts.get? i = some a ∧
      a.alert_type = AlertType.crowd_detected ∧ a.resolved = false ∧
      (s.check_alerts tracks ts).1.active_alerts.get? i =
        some { a with details :=
          { a.details with current_count := some tracks.length } } := by
  cases hfind : s.active_alerts.findIdx?
      (fun a => a.alert_type == AlertType.crowd_detected && !a.resolved) with
  | none =>
    exfalso
    have hzero : countCrowdUnres s.active_alerts = 0 := by
      unfold countCrowdUnres
      rw [List.length_eq_zero, List.filter_eq_nil_iff]
      intro a ha
      rw [List.findIdx?_eq_none_iff.1 hfind a ha]
      exact Bool.false_ne_true
    rw [unresolvedCrowd, hzero] at hex
    exact absurd hex (lt_irrefl 0)
  | some i =>
    obtain ⟨a, hget, htype, hres, heq⟩ := check_crowd_ge_found s tracks ts hge i hfind
    obtain ⟨hlen, -⟩ := List.get?_eq_some.1 hget
    obtain ⟨-, -, hlc, hic⟩ := countCrowdUnres_loiter_idle
      { s with active_alerts := (s.check_crowd tracks ts).1 } tracks ts
    unfold AlertSystem.check_alerts crowdAlerts
    dsimp only
    rw [foldl_process_active]
    dsimp only
    rw [heq]
    dsimp only [Option.toList]
    refine ⟨?_, ?_, ?_⟩
    · rw [countCrowd_append, countCrowd_append, countCrowd_append]
      rw [countCrowd_set s.active_alerts i _ (fun x hx => by
        rw [hget] at hx
        cases hx
        rfl)]
      unfold countCrowd at hlc hic ⊢
      rw [heq] at hlc hic
      rw [hlc, hic]
      simp [countCrowd]
    · rw [List.filter_append, List.filter_append]
      have hfl : (({ s with active_alerts :=
          (s.active_alerts.set i { a with details :=
            { a.details with current_count := some tracks.length } },
           (none : Option Alert)).1 } : AlertSystem).check_loitering tracks
            ts).filter (fun a => a.alert_type == AlertType.crowd_detected) = [] := by
        rw [List.filter_eq_nil_iff]
        intro b hb
        rw [check_loitering_alert_types _ _ _ b hb]
        simp
      have hfi : (({ s with active_alerts :=
          (s.active_alerts.set i { a with details :=
            { a.details with current_count := some tracks.length } },
           (none : Option Alert)).1 } : AlertSystem).check_idle_behavior tracks
            ts).filter (fun a => a.alert_type == AlertType.crowd_detected) = [] := by
        rw [List.filter_eq_nil_iff]
        intro b hb
        rw [check_idle_alert_types _ _ _ b hb]
        simp
      rw [hfl, hfi]
      rfl
    · refine ⟨i, a, hget, htype, hres, ?_⟩
      rw [List.get?_append (by rw [List.length_set]; exact hlen)]
      rw [List.get?_set_eq, hget]
      rfl


theorem crowd_resolve_on_drop (s : AlertSystem) (tracks : List Track) (ts : ℚ)
    (hlt : tracks.length < s.crowd_threshold) :
    unresolvedCrowd (s.check_alerts tracks ts).1 = 0 := by
  unfold AlertSystem.check_alerts unresolvedCrowd
  dsimp only
  rw [foldl_process_active]
  dsimp only
  rw [countCrowdUnres_append, countCrowdUnres_append, countCrowdUnres_append]
  obtain ⟨hl, hi, -, -⟩ := countCrowdUnres_loiter_idle
    { s with active_alerts := (s.check_crowd tracks ts).1 } tracks ts
  rw [hl, hi, check_crowd_lt s tracks ts hlt]
  dsimp only [Option.toList]
  rw [countCrowdUnres_resolve_map]
  rfl

theorem resolved_alert_frozen (s : AlertSystem) (tracks : List Track) (ts : ℚ)
    (i : ℕ) (a : Alert) (hget : s.active_alerts.get? i = some a)
    (hres : a.resolved = true) :
    (s.check_alerts tracks ts).1.active_alerts.get? i = some a := by
  obtain ⟨hlen, -⟩ := List.get?_eq_some.1 hget
  unfold AlertSystem.check_alerts
  dsimp only
  rw [foldl_process_active]
  dsimp only
  by_cases hge : tracks.length ≥ s.crowd_threshold
  · cases hfind : s.active_alerts.findIdx?
        (fun a => a.alert_type == AlertType.crowd_detected && !a.resolved) with
    | none =>
      obtain ⟨-, heq⟩ := check_crowd_ge_none s tracks ts hge hfind
      rw [heq]
      dsimp only
      rw [List.get?_append hlen]
      exact hget
    | some j =>
      obtain ⟨b, hgetb, -, hresb, heq⟩ := check_crowd_ge_found s tracks ts hge j hfind
      rw [heq]
      dsimp only
      have hij : j ≠ i := by
        intro hji
        subst hji
        rw [hget] at hgetb
        cases hgetb
        rw [hres] at hresb
        exact absurd hresb (by simp)
      rw [List.get?_append (by rw [List.length_set]; exact hlen)]
      rw [List.get?_set_ne _ _ hij]
      exact hget
  · rw [check_crowd_lt s tracks ts (not_le.1 hge)]
    dsimp only
    rw [List.get?_append (by rw [List.length_map]; exact hlen)]
    rw [List.get?_map, hget]
    have hcond : (a.alert_type == AlertType.crowd_detected && !a.resolved) = false := by
      rw [hres]
      simp
    dsimp only [Option.map]
    rw [hcond]
    rfl

/-- **C6** (confirmed): over every `check_alerts` session from a fresh
alert system, at most one unresolved CrowdDetected alert exists after
every call; while the count stays at or above the threshold a
re-trigger adds no new crowd alert but rewrites the existing
unresolved alert's `details.current_count` in place; on a call where
the count drops below the threshold no unresolved crowd alert remains;
and an already-resolved alert is never touched again (resolution
happens exactly once). -/
theorem crowd_alert_dedup_resolve :
    (∀ (p : Option ℕ) (lt : ℚ) (inputs : List (List Track × ℚ)),
      unresolvedCrowd ((AlertSystem.init p lt).run inputs) ≤ 1) ∧
    (∀ (s : AlertSystem) (tracks : List Track) (ts : ℚ),
      tracks.length ≥ s.crowd_threshold → 0 < unresolvedCrowd s →
        crowdAlerts (s.check_alerts tracks ts).1 = crowdAlerts s ∧
        (s.check_alerts tracks ts).2.filter
          (fun a => a.alert_type == AlertType.crowd_detected) = [] ∧
        ∃ i a, s.active_alerts.get? i = some a ∧
          a.alert_type = AlertType.crowd_detected ∧ a.resolved = false ∧
          (s.check_alerts tracks ts).1.active_alerts.get? i =
            some { a with details :=
              { a.details with current_count := some tracks.length } }) ∧
    (∀ (s : AlertSystem) (tracks : List Track) (ts : ℚ),
      tracks.length < s.crowd_threshold →
        unresolvedCrowd (s.check_alerts tracks ts).1 = 0) ∧
    (∀ (s : AlertSystem) (tracks : List Track) (ts : ℚ) (i : ℕ) (a : Alert),
      s.active_alerts.get? i = some a → a.resolved = true →
        (s.check_alerts tracks ts).1.active_alerts.get? i = some a) :=
  ⟨fun p lt inputs => unresolvedCrowd_run_le inputs _ (Nat.zero_le 1),
   fun s tracks ts hge hex => crowd_retrigger s tracks ts hge hex,
   fun s tracks ts hlt => crowd_resolve_on_drop s tracks ts hlt,
   fun s tracks ts i a hget hres => resolved_alert_frozen s tracks ts i a hget hres⟩

/-- Ten one-track fixtures, enough to trip the default crowd
threshold. -/
def wCrowdTracks : List Track := (List.range 10).map fun i => { track_id := i }

/-- The alert system after one crowd tick: one unresolved crowd
alert. -/
def wAlerts1 : AlertSystem :=
  ((AlertSystem.init none 300).check_alerts wCrowdTracks 1).1

/-- The same system after the count dropped: the alert is resolved. -/
def wAlerts2 : AlertSystem := (wAlerts1.check_alerts [] 3).1

/-- The resolved crowd alert stored in `wAlerts2`. -/
def wResolvedAlert : Alert :=
  { alert_id := 0
    alert_type := AlertType.crowd_detected
    level := AlertLevel.warning
    timestamp := 1
    message := "Crowd detected: 10 people"
    details := { people_count := some 10, threshold := some 10 }
    resolved := true
    resolved_at := some () }

/-- Witness for C6: each conjunct applied at a concrete crowded/empty
tick of a concrete alert store. -/
theorem crowd_alert_dedup_resolve_witness :
    unresolvedCrowd
      ((AlertSystem.init none 300).run [(wCrowdTracks, 1), (wCrowdTracks, 2)]) ≤ 1 ∧
    (crowdAlerts (wAlerts1.check_alerts wCrowdTracks 2).1 = crowdAlerts wAlerts1 ∧
     (wAlerts1.check_alerts wCrowdTracks 2).2.filter
       (fun a => a.alert_type == AlertType.crowd_detected) = [] ∧
     ∃ i a, wAlerts1.active_alerts.get? i = some a ∧
       a.alert_type = AlertType.crowd_detected ∧ a.resolved = false ∧
       (wAlerts1.check_alerts wCrowdTracks 2).1.active_alerts.get? i =
         some { a with details :=
           { a.details with current_count := some wCrowdTracks.length } }) ∧
    unresolvedCrowd (wAlerts1.check_alerts [] 3).1 = 0 ∧
    (wAlerts2.check_alerts [] 4).1.active_alerts.get? 0 = some wResolvedAlert :=
  ⟨crowd_alert_dedup_resolve.1 none 300 [(wCrowdTracks, 1), (wCrowdTracks, 2)],
   crowd_alert_dedup_resolve.2.1 wAlerts1 wCrowdTracks 2
     (by with_unfolding_all decide) (by with_unfolding_all decide),
   crowd_alert_dedup_resolve.2.2.1 wAlerts1 [] 3 (by with_unfolding_all decide),
   crowd_alert_dedup_resolve.2.2.2 wAlerts2 [] 4 0 wResolvedAlert
     (by with_unfolding_all decide) rfl⟩

end Eyeora
